import Mathlib

/-!
Verification of the vendorIQ.ai document-processing pipeline.

Shallow embedding of the Python sources:
  backend/ocr-extraction-service/app/models/invoice_status.py
  backend/ocr-extraction-service/app/services/retry_service.py
  backend/ocr-extraction-service/app/services/invoice_processor.py
  backend/ocr-extraction-service/app/services/gemini_client.py
  backend/ocr-extraction-service/app/db.py  (mirrored in chat-service/app/db.py)
  backend/chat-service/app/core/retriever.py
  backend/chat-service/app/core/orchestrator.py

Conventions of the embedding:
  * datetime.utcnow() / datetime.now(timezone.utc) are modelled by an explicit
    (now : Nat) argument; the code never branches on the clock.
  * Python strings are Lean String; a value that may be absent (dict.get) is
    Option String.  Python truthiness of such a value: None and "" are falsy.
  * External I/O (Drive download, OCR HTTP call, upload success) is passed in
    as explicit oracle functions, so every run of the embedded pipeline is a
    pure function of its inputs.
-/

/-- Python truthiness of an optional string: None and the empty string are falsy. -/
def pyTruthy : Option String → Bool
  | none => false
  | some s => !(s == "")

/-- Python falsiness of an optional string. -/
def pyFalsy (o : Option String) : Bool := !(pyTruthy o)

/-! ## invoice_status.py : InvoiceProcessingError / InvoiceProcessingStatus -/

/-- One entry of the error list of a status record
(class InvoiceProcessingError, invoice_status.py lines 11-18). -/
structure InvoiceProcessingError where
  phase : String
  message : String
  code : Option String := none
  retryable : Bool := true
  timestamp : Nat := 0
deriving DecidableEq

/-- One per-document status record
(class InvoiceProcessingStatus, invoice_status.py lines 21-60). -/
structure InvoiceProcessingStatus where
  user_id : String
  vendor_name : String
  drive_file_id : String
  file_name : String
  status : String := "PENDING"
  ocr_attempt_count : Nat := 0
  chat_attempt_count : Nat := 0
  errors : List InvoiceProcessingError := []
  created_at : Nat := 0
  updated_at : Nat := 0
  download_started_at : Option Nat := none
  ocr_started_at : Option Nat := none
  ocr_completed_at : Option Nat := none
  chat_started_at : Option Nat := none
  chat_completed_at : Option Nat := none
  vendor_folder_id : Option String := none
  invoice_folder_id : Option String := none
  web_view_link : Option String := none
  ocr_result : Option String := none
deriving DecidableEq

/-- add_error (invoice_status.py lines 62-71). -/
def InvoiceProcessingStatus.add_error (s : InvoiceProcessingStatus)
    (phase message : String) (retryable : Bool) (now : Nat) : InvoiceProcessingStatus :=
  { s with
      errors := s.errors ++ [{ phase := phase, message := message,
                               retryable := retryable, timestamp := now }]
      updated_at := now }

/-- is_retryable (invoice_status.py lines 73-82): false unless the status is a
failure state; otherwise the last error's retryable flag, or true when the
error list is empty. -/
def InvoiceProcessingStatus.is_retryable (s : InvoiceProcessingStatus) : Bool :=
  if s.status = "OCR_FAILED" ∨ s.status = "CHAT_FAILED" then
    match s.errors.getLast? with
    | some e => e.retryable
    | none => true
  else false

/-- should_retry_ocr (invoice_status.py lines 84-90). -/
def InvoiceProcessingStatus.should_retry_ocr (s : InvoiceProcessingStatus)
    (max_attempts : Nat) : Bool :=
  (s.status == "OCR_FAILED") && decide (s.ocr_attempt_count < max_attempts)
    && s.is_retryable

/-- should_retry_chat (invoice_status.py lines 92-98). -/
def InvoiceProcessingStatus.should_retry_chat (s : InvoiceProcessingStatus)
    (max_attempts : Nat) : Bool :=
  (s.status == "CHAT_FAILED") && decide (s.chat_attempt_count < max_attempts)
    && s.is_retryable

/-- mark_downloading (invoice_status.py lines 100-104). -/
def InvoiceProcessingStatus.mark_downloading (s : InvoiceProcessingStatus)
    (now : Nat) : InvoiceProcessingStatus :=
  { s with status := "DOWNLOADING", download_started_at := some now, updated_at := now }

/-- mark_ocr_processing (invoice_status.py lines 106-111). -/
def InvoiceProcessingStatus.mark_ocr_processing (s : InvoiceProcessingStatus)
    (now : Nat) : InvoiceProcessingStatus :=
  { s with status := "OCR_PROCESSING", ocr_started_at := some now,
           ocr_attempt_count := s.ocr_attempt_count + 1, updated_at := now }

/-- mark_ocr_success (invoice_status.py lines 113-119); the cached result is
only overwritten when a truthy result is supplied. -/
def InvoiceProcessingStatus.mark_ocr_success (s : InvoiceProcessingStatus)
    (result : Option String) (now : Nat) : InvoiceProcessingStatus :=
  { s with status := "OCR_SUCCESS", ocr_completed_at := some now,
           ocr_result := if result.isSome then result else s.ocr_result,
           updated_at := now }

/-- mark_ocr_failed (invoice_status.py lines 121-124): sets the status then
appends an "ocr" error. -/
def InvoiceProcessingStatus.mark_ocr_failed (s : InvoiceProcessingStatus)
    (error_message : String) (retryable : Bool) (now : Nat) : InvoiceProcessingStatus :=
  InvoiceProcessingStatus.add_error { s with status := "OCR_FAILED" }
    "ocr" error_message retryable now

/-- mark_chat_indexing (invoice_status.py lines 126-131). -/
def InvoiceProcessingStatus.mark_chat_indexing (s : InvoiceProcessingStatus)
    (now : Nat) : InvoiceProcessingStatus :=
  { s with status := "CHAT_INDEXING", chat_started_at := some now,
           chat_attempt_count := s.chat_attempt_count + 1, updated_at := now }

/-- mark_chat_failed (invoice_status.py lines 133-136). -/
def InvoiceProcessingStatus.mark_chat_failed (s : InvoiceProcessingStatus)
    (error_message : String) (retryable : Bool) (now : Nat) : InvoiceProcessingStatus :=
  InvoiceProcessingStatus.add_error { s with status := "CHAT_FAILED" }
    "chat" error_message retryable now

/-- mark_completed (invoice_status.py lines 138-142). -/
def InvoiceProcessingStatus.mark_completed (s : InvoiceProcessingStatus)
    (now : Nat) : InvoiceProcessingStatus :=
  { s with status := "COMPLETED", chat_completed_at := some now, updated_at := now }

/-- One call of a transition method of InvoiceProcessingStatus, as a step
relation between records: exactly the methods of invoice_status.py
lines 100-142. -/
inductive StatusStep : InvoiceProcessingStatus → InvoiceProcessingStatus → Prop
  | downloading (s : InvoiceProcessingStatus) (now : Nat) :
      StatusStep s (s.mark_downloading now)
  | ocr_processing (s : InvoiceProcessingStatus) (now : Nat) :
      StatusStep s (s.mark_ocr_processing now)
  | ocr_success (s : InvoiceProcessingStatus) (result : Option String) (now : Nat) :
      StatusStep s (s.mark_ocr_success result now)
  | ocr_failed (s : InvoiceProcessingStatus) (msg : String) (r : Bool) (now : Nat) :
      StatusStep s (s.mark_ocr_failed msg r now)
  | chat_indexing (s : InvoiceProcessingStatus) (now : Nat) :
      StatusStep s (s.mark_chat_indexing now)
  | chat_failed (s : InvoiceProcessingStatus) (msg : String) (r : Bool) (now : Nat) :
      StatusStep s (s.mark_chat_failed msg r now)
  | completed (s : InvoiceProcessingStatus) (now : Nat) :
      StatusStep s (s.mark_completed now)

/-! ## retry_service.py : selection and attempt-ceiling partition -/

/-- Selection of failed, retryable records
(retry_service.py lines 120-124, same predicate as
invoice_status.py get_failed_invoices line 231). -/
def retryFailedSelection (statuses : List InvoiceProcessingStatus) :
    List InvoiceProcessingStatus :=
  statuses.filter (fun s =>
    ((s.status == "OCR_FAILED") || (s.status == "CHAT_FAILED")) && s.is_retryable)

/-- Attempt-ceiling partition of the selected records
(retry_service.py lines 130-140): returns (retryable, max_retries_reached). -/
def retryPartition (failed_statuses : List InvoiceProcessingStatus)
    (max_ocr_retries max_chat_retries : Nat) :
    List InvoiceProcessingStatus × List InvoiceProcessingStatus :=
  failed_statuses.foldl
    (fun acc s =>
      if s.status = "OCR_FAILED" ∧ max_ocr_retries ≤ s.ocr_attempt_count then
        (acc.1, acc.2 ++ [s])
      else if s.status = "CHAT_FAILED" ∧ max_chat_retries ≤ s.chat_attempt_count then
        (acc.1, acc.2 ++ [s])
      else
        (acc.1 ++ [s], acc.2))
    ([], [])

/-! ## Concrete records used by the claims about the status model -/

/-- A freshly created record: status PENDING (the constructor default). -/
def c3rec : InvoiceProcessingStatus :=
  { user_id := "u1", vendor_name := "acme", drive_file_id := "f1", file_name := "a.pdf" }

/-- An OCR_FAILED record with an empty error list (as loaded from a status file
whose errors field is absent). -/
def c4rec : InvoiceProcessingStatus :=
  { user_id := "u1", vendor_name := "acme", drive_file_id := "f2", file_name := "b.pdf",
    status := "OCR_FAILED" }

/-- An OCR_FAILED record with ocr_attempt_count = 3 and a retryable last error. -/
def c4doc : InvoiceProcessingStatus :=
  { user_id := "u1", vendor_name := "acme", drive_file_id := "f3", file_name := "c.pdf",
    status := "OCR_FAILED", ocr_attempt_count := 3,
    errors := [{ phase := "ocr", message := "timeout", retryable := true }] }

/-- A CHAT_FAILED record with an empty error list. -/
def c9rec : InvoiceProcessingStatus :=
  { user_id := "u1", vendor_name := "acme", drive_file_id := "f4", file_name := "d.pdf",
    status := "CHAT_FAILED" }

/-! ## db.py : the shared MongoDB documents collection -/

/-- One document of the shared documents collection
(fields written by db.py upsert_document / update_ocr_status). -/
structure DocRecord where
  userId : String
  driveFileId : String
  ocrStatus : String := "PENDING"
  indexed : Bool := false
  indexVersion : Nat := 0
  ocrCompletedAt : Option Nat := none
  masterJsonPath : Option String := none
  ocrError : Option String := none
  createdAt : Nat := 0
  updatedAt : Nat := 0
  indexedAt : Option Nat := none
deriving DecidableEq

/-- The per-document effect of update_ocr_status
(ocr-extraction-service/app/db.py lines 94-127): always sets ocrStatus and
updatedAt; when the new status is COMPLETED also sets ocrCompletedAt, resets
the indexed flag, and (only if a truthy path is given) masterJsonPath; a
truthy ocr_error sets ocrError. -/
def applyOcrStatusUpdate (d : DocRecord) (ocr_status : String)
    (master_json_path ocr_error : Option String) (now : Nat) : DocRecord :=
  let d1 := { d with ocrStatus := ocr_status, updatedAt := now }
  let d2 :=
    if ocr_status = "COMPLETED" then
      { d1 with ocrCompletedAt := some now, indexed := false,
                masterJsonPath :=
                  if pyTruthy master_json_path then master_json_path
                  else d1.masterJsonPath }
    else d1
  if pyTruthy ocr_error then { d2 with ocrError := ocr_error } else d2

/-- Mongo update_one: the first document matching (userId, driveFileId) is
updated; the unique index on that key pair makes at most one match exist. -/
def updateFirstDoc : List DocRecord → String → String → (DocRecord → DocRecord) →
    List DocRecord
  | [], _, _, _ => []
  | d :: rest, user_id, drive_file_id, f =>
      if d.userId = user_id ∧ d.driveFileId = drive_file_id then f d :: rest
      else d :: updateFirstDoc rest user_id drive_file_id f

/-- update_ocr_status (db.py lines 94-127) over the documents collection. -/
def update_ocr_status (docs : List DocRecord) (user_id drive_file_id ocr_status : String)
    (master_json_path ocr_error : Option String) (now : Nat) : List DocRecord :=
  updateFirstDoc docs user_id drive_file_id
    (fun d => applyOcrStatusUpdate d ocr_status master_json_path ocr_error now)

/-- get_unindexed_documents (db.py lines 137-148, and chat-service/app/db.py
lines 31-42): documents of the user with ocrStatus COMPLETED and indexed
False. -/
def get_unindexed_documents (docs : List DocRecord) (user_id : String) :
    List DocRecord :=
  docs.filter (fun d =>
    d.userId == user_id && d.ocrStatus == "COMPLETED" && d.indexed == false)

/-- A COMPLETED, not-yet-indexed document used to witness C10. -/
def c10doc : DocRecord :=
  { userId := "u1", driveFileId := "f9", ocrStatus := "COMPLETED", indexed := false }

/-! ## Sorting and numeric parsing helpers

Python list.sort / sorted are stable; both are modelled by a stable insertion
sort parameterised by a keep relation: keep y x = true means an element y
already in the list stays in front of the newly inserted x. -/

/-- Stable insertion of one element. -/
def insertKeep (keep : α → α → Bool) (x : α) : List α → List α
  | [] => [x]
  | y :: ys => if keep y x then y :: insertKeep keep x ys else x :: y :: ys

/-- Stable insertion sort (Python sorted / list.sort). -/
def sortKeep (keep : α → α → Bool) (l : List α) : List α :=
  l.foldl (fun acc x => insertKeep keep x acc) []

/-- Numeric value of a list of decimal digit characters. -/
def digitsToNat (cs : List Char) : Nat :=
  cs.foldl (fun n c => n * 10 + (c.toNat - 48)) 0

/-- Exact rational addition, written through mkRat so that concrete runs of
the embedded code evaluate inside proofs. -/
def ratAdd (a b : Rat) : Rat :=
  mkRat (a.num * (b.den : Int) + b.num * (a.den : Int)) (a.den * b.den)

/-- Exact rational division through mkRat. -/
def ratDiv (a b : Rat) : Rat :=
  if 0 ≤ b.num then mkRat (a.num * (b.den : Int)) (a.den * b.num.natAbs)
  else mkRat (-(a.num * (b.den : Int))) (a.den * b.num.natAbs)

/-- Exact rational negation through mkRat. -/
def ratNeg (a : Rat) : Rat := mkRat (-a.num) a.den

/-- Sum of a list of rationals. -/
def ratSum (l : List Rat) : Rat := l.foldl ratAdd 0

/-- Parse an unsigned decimal literal over the alphabet of digits and dots, as
Python float() accepts it: at most one dot and at least one digit; anything
else raises (None here). -/
def parseDecimal (cs : List Char) : Option Rat :=
  if cs.all (fun c => c.isDigit || c == '.') then
    match cs.splitOn '.' with
    | [ip] => if ip.isEmpty then none else some (digitsToNat ip)
    | [ip, fp] =>
        if ip.isEmpty && fp.isEmpty then none
        else some (ratAdd (digitsToNat ip : Rat)
          (ratDiv (digitsToNat fp : Rat) ((10 ^ fp.length : Nat) : Rat)))
    | _ => none
  else none

/-- Python str.strip() over the character list. -/
def pyStrip (cs : List Char) : List Char :=
  ((cs.dropWhile Char.isWhitespace).reverse.dropWhile Char.isWhitespace).reverse

/-- Python float() on a plain decimal literal with an optional sign
(the only shapes the embedded code feeds it); any other input raises. -/
def pyFloatOfString (s : String) : Option Rat :=
  match s.data with
  | '-' :: rest => (parseDecimal rest).map ratNeg
  | '+' :: rest => parseDecimal rest
  | cs => parseDecimal cs

/-! ## retriever.py : the Chroma vector store -/

/-- A line item as stored in chunk metadata (used by the spend fallback). -/
structure LineItemMeta where
  amount : Option String := none
deriving DecidableEq

/-- The metadata map of one stored chunk, restricted to the keys the read
paths of retriever.py consult.  ctype is the "type" metadata key ("invoice" or
"vendor_summary"). -/
structure ChunkMeta where
  chunk_id : String
  user_id : String
  vendor_name : String
  ctype : String
  total_amount : Option String := none
  invoice_date : Option String := none
  line_items : List LineItemMeta := []
  sha256 : Option String := none
deriving DecidableEq

/-- One stored chunk (id, document text, metadata).  The embedding vector is
out of scope: similarity ranking enters only through a distance oracle. -/
structure Chunk where
  id : String
  content : String
  meta : ChunkMeta
deriving DecidableEq

/-- The filter predicates the read paths pass to ChromaDB. -/
inductive WhereClause
  | byUser (u : String)
  | andUserVendor (u v : String)
  | byVendor (v : String)
deriving DecidableEq

/-- Evaluation of a Chroma where-clause on stored metadata. -/
def matchesWhere : WhereClause → ChunkMeta → Bool
  | .byUser u, m => m.user_id == u
  | .andUserVendor u v, m => m.user_id == u && m.vendor_name == v
  | .byVendor v, m => m.vendor_name == v

/-- collection.get(where=w): all chunks whose metadata satisfies the filter. -/
def collection_get (store : List Chunk) (w : WhereClause) : List Chunk :=
  store.filter (fun c => matchesWhere w c.meta)

/-- collection.query(..., where=w, n_results=n): the vector engine itself is an
external collaborator; it returns the n chunks matching the filter that are
nearest under the distance oracle. -/
def collection_query (store : List Chunk) (w : WhereClause) (n : Nat)
    (dist : Chunk → Rat) : List Chunk :=
  (sortKeep (fun y x => decide (dist y ≤ dist x)) (collection_get store w)).take n

/-- search_similar_filtered (retriever.py lines 192-219): user filter, plus a
vendor filter when a truthy vendor name is given. -/
def search_similar_filtered (store : List Chunk) (dist : Chunk → Rat)
    (user_id : String) (vendor_name : Option String) (n_results : Nat) :
    List Chunk :=
  let w := if pyTruthy vendor_name then
      WhereClause.andUserVendor user_id (vendor_name.getD "")
    else WhereClause.byUser user_id
  collection_query store w n_results dist

/-- search_by_vendor (retriever.py lines 221-235): a full scan filtered by
vendor name only — no user filter — capped to n_results when positive. -/
def search_by_vendor (store : List Chunk) (vendor_name : String)
    (n_results : Nat) : List Chunk :=
  let docs := collection_get store (WhereClause.byVendor vendor_name)
  if 0 < n_results then docs.take n_results else docs

/-- get_all_by_user (retriever.py lines 237-261). -/
def get_all_by_user (store : List Chunk) (user_id : String)
    (vendor_name : Option String) : List Chunk :=
  collection_get store
    (if pyTruthy vendor_name then
        WhereClause.andUserVendor user_id (vendor_name.getD "")
      else WhereClause.byUser user_id)

/-! ## retriever.py : get_vendor_spend_totals -/

/-- _parse_amount (retriever.py lines 349-359): strip currency symbols and
commas, keep only digits and dots, then parse with Python float; any failure
or missing value yields 0. -/
def parse_amount (val : Option String) : Rat :=
  match val with
  | none => 0
  | some v =>
      let s1 := (pyStrip v.data).filter (fun c => !(c == '₹' || c == '$' || c == ','))
      let s2 := s1.filter (fun c => c.isDigit || c == '.')
      if s2.isEmpty then 0
      else match parseDecimal s2 with
        | some q => q
        | none => 0

/-- Sum of the parsed line-item amounts (retriever.py lines 370-373). -/
def lineItemsTotal (lis : List LineItemMeta) : Rat :=
  lis.foldl (fun acc li => ratAdd acc (parse_amount li.amount)) 0

/-- Amount attributed to one invoice chunk (retriever.py lines 361-377):
header total, falling back to the line-item sum when the header total is zero,
line items exist and their sum is positive. -/
def invoiceAmount (m : ChunkMeta) : Rat :=
  let amount := parse_amount m.total_amount
  if amount = 0 ∧ m.line_items ≠ [] then
    let li_total := lineItemsTotal m.line_items
    if 0 < li_total then li_total else amount
  else amount

/-- One vendor's aggregate in the spend ranking. -/
structure VendorSpend where
  vendor_name : String
  total_spend : Rat
  invoice_count : Nat
deriving DecidableEq

/-- Upsert one invoice amount into the totals map; Python dicts iterate in
insertion order, modelled by an insertion-ordered association list. -/
def addInvoiceTo : List VendorSpend → String → Rat → List VendorSpend
  | [], v, a => [{ vendor_name := v, total_spend := a, invoice_count := 1 }]
  | e :: rest, v, a =>
      if e.vendor_name = v then
        { e with total_spend := ratAdd e.total_spend a,
                 invoice_count := e.invoice_count + 1 } :: rest
      else e :: addInvoiceTo rest v a

/-- Record a vendor name in the all_vendors set (insertion-ordered; the claims
do not depend on Python set iteration order). -/
def addVendorName (l : List String) (v : String) : List String :=
  if v ∈ l then l else l ++ [v]

/-- The body of the metadata loop of get_vendor_spend_totals
(retriever.py lines 338-380). -/
def spendFold (acc : List VendorSpend × List String) (m : ChunkMeta) :
    List VendorSpend × List String :=
  let allv := if m.vendor_name ≠ "" then addVendorName acc.2 m.vendor_name else acc.2
  if m.ctype ≠ "invoice" then (acc.1, allv)
  else
    let vendor := if m.vendor_name = "" then "Unknown" else m.vendor_name
    (addInvoiceTo acc.1 vendor (invoiceAmount m), allv)

/-- get_vendor_spend_totals (retriever.py lines 327-400): reads the user's
chunks, aggregates invoice amounts per vendor, appends zero rows for vendors
with no invoice chunks, and sorts descending by total spend (stable). -/
def get_vendor_spend_totals (store : List Chunk) (user_id : String) :
    List VendorSpend :=
  let metas := (collection_get store (WhereClause.byUser user_id)).map Chunk.meta
  let acc := metas.foldl spendFold ([], [])
  let zero_vendors := acc.2.filter (fun v => !(acc.1.any (fun e => e.vendor_name == v)))
  let ranking := acc.1 ++ zero_vendors.map
    (fun v => { vendor_name := v, total_spend := 0, invoice_count := 0 })
  sortKeep (fun y x => decide (x.total_spend ≤ y.total_spend)) ranking

/-! ## orchestrator.py : get_analytics -/

/-- datetime.fromisoformat on the first 10 characters of a date string,
yielding (year, month); returns none when the shape is not a zero-padded ISO
date (day-in-month bounds beyond 1..31 are not modelled; no claim exercises
them). -/
def parseIsoDate (s : String) : Option (Nat × Nat) :=
  match s.data.take 10 with
  | [a, b, c, d, h1, e, f, h2, g, h] =>
      if (h1 == '-') && (h2 == '-') && [a, b, c, d, e, f, g, h].all Char.isDigit then
        let y := digitsToNat [a, b, c, d]
        let mo := digitsToNat [e, f]
        let da := digitsToNat [g, h]
        if 1 ≤ mo ∧ mo ≤ 12 ∧ 1 ≤ da ∧ da ≤ 31 then some (y, mo) else none
      else none
  | _ => none

/-- str(x).replace(",", ""). -/
def removeCommas (s : String) : String :=
  ⟨s.data.filter (fun c => !(c == ','))⟩

/-- Upsert an amount into a keyed totals list (defaultdict(float) in
insertion order). -/
def addKeyed : List (Nat × Rat) → Nat → Rat → List (Nat × Rat)
  | [], k, a => [(k, a)]
  | p :: rest, k, a =>
      if p.1 = k then (p.1, ratAdd p.2 a) :: rest else p :: addKeyed rest k a

/-- The monthly-totals loop of get_analytics (orchestrator.py lines 136-157):
per invoice chunk, parse the amount with float(str(x).replace(",", "")) (0.0 on
failure), parse the date, and accumulate into the %Y-%m bucket.  A month
bucket "YYYY-MM" is keyed by year*100+month, which sorts exactly like the
string key for four-digit years. -/
def monthlyTotalsOf (metas : List ChunkMeta) : List (Nat × Rat) :=
  metas.foldl
    (fun acc m =>
      if m.ctype ≠ "invoice" then acc
      else
        let amount : Rat :=
          match m.total_amount with
          | none => 0
          | some a =>
              match pyFloatOfString (removeCommas a) with
              | some q => q
              | none => 0
        match m.invoice_date with
        | none => acc
        | some ds =>
            if ds = "" then acc
            else match parseIsoDate ds with
              | none => acc
              | some (y, mo) => addKeyed acc (y * 100 + mo) amount)
    []

/-- Python l[-n:]. -/
def pyTakeLast (n : Nat) (l : List α) : List α := l.drop (l.length - n)

/-- The period window of get_analytics (orchestrator.py lines 161-170). -/
def filterPeriod (period : String) (sorted_months : List Nat) : List Nat :=
  if period = "month" then
    match sorted_months.getLast? with
    | some k => [k]
    | none => []
  else if period = "quarter" then pyTakeLast 3 sorted_months
  else if period = "year" then pyTakeLast 12 sorted_months
  else sorted_months

/-- Value of one month bucket. -/
def monthValue (totals : List (Nat × Rat)) (k : Nat) : Rat :=
  match totals.find? (fun p => p.1 == k) with
  | some p => p.2
  | none => 0

/-- The analytics payload of get_analytics, restricted to the derived numeric
fields (the LLM summary text is an external collaborator). -/
structure AnalyticsResult where
  success : Bool
  highestVendor : String
  highestSpend : Rat
  totalSpend : Rat
  totalInvoices : Nat
  averageInvoice : Rat
  monthlyTrend : List (Nat × Rat)
  topVendors : List (String × Rat)
  quarterlyTrend : List (Nat × Rat)
  period : String
deriving DecidableEq

/-- get_analytics (orchestrator.py lines 113-232). -/
def get_analytics (store : List Chunk) (user_id : String) (period : String) :
    AnalyticsResult :=
  let spend_ranking := get_vendor_spend_totals store user_id
  if spend_ranking.isEmpty then
    { success := false, highestVendor := "N/A", highestSpend := 0,
      totalSpend := 0, totalInvoices := 0, averageInvoice := 0,
      monthlyTrend := [], topVendors := [], quarterlyTrend := [],
      period := period }
  else
    let total_spend_all := ratSum (spend_ranking.map VendorSpend.total_spend)
    let inv_sum := (spend_ranking.map VendorSpend.invoice_count).sum
    let total_invoices_all := if inv_sum = 0 then 1 else inv_sum
    let average_invoice := ratDiv total_spend_all (total_invoices_all : Rat)
    let highest := spend_ranking.headD
      { vendor_name := "N/A", total_spend := 0, invoice_count := 0 }
    let metas := (get_all_by_user store user_id none).map Chunk.meta
    let monthly_totals := monthlyTotalsOf metas
    let sorted_months :=
      sortKeep (fun y x => decide (y ≤ x)) (monthly_totals.map Prod.fst)
    let filtered := filterPeriod period sorted_months
    let monthly_trend := filtered.map (fun m => (m, monthValue monthly_totals m))
    let top_vendors := spend_ranking.map (fun v => (v.vendor_name, v.total_spend))
    let quarterly_map := monthly_totals.foldl
      (fun acc p =>
        addKeyed acc ((p.1 / 100) * 10 + ((p.1 % 100 - 1) / 3 + 1)) p.2)
      []
    let quarterly_trend :=
      pyTakeLast 8 (sortKeep (fun y x => decide (y.1 ≤ x.1)) quarterly_map)
    { success := true,
      highestVendor := highest.vendor_name,
      highestSpend := highest.total_spend,
      totalSpend := total_spend_all,
      totalInvoices := total_invoices_all,
      averageInvoice := average_invoice,
      monthlyTrend := monthly_trend,
      topVendors := top_vendors,
      quarterlyTrend := quarterly_trend,
      period := period }

/-! ## Claim C1 : tenant isolation of the vector-store read paths -/

/-- A chunk belonging to user userY, vendor acme. -/
def chunkY : Chunk :=
  { id := "cY", content := "acme invoice of userY",
    meta := { chunk_id := "cY", user_id := "userY", vendor_name := "acme",
              ctype := "invoice", total_amount := some "10",
              invoice_date := some "2024-03-01" } }

/-- A chunk belonging to user userX, vendor acme. -/
def chunkX : Chunk :=
  { id := "cX", content := "acme invoice of userX",
    meta := { chunk_id := "cX", user_id := "userX", vendor_name := "acme",
              ctype := "invoice", total_amount := some "20",
              invoice_date := some "2024-03-02" } }

/-! ## Claim C8 : period windowing of the monthly trend -/

/-- The sorted month keys get_analytics derives for a user. -/
def analyticsMonths (store : List Chunk) (u : String) : List Nat :=
  sortKeep (fun y x => decide (y ≤ x))
    ((monthlyTotalsOf ((get_all_by_user store u none).map Chunk.meta)).map Prod.fst)

/-- The worked-example store: invoices of 100 (vendor A, 2024-01-05),
50 (vendor B, 2024-01-20) and 75 (vendor C, 2024-02-10) for user u1. -/
def c8chunk (cid u v am dt : String) : Chunk :=
  { id := cid, content := "invoice text",
    meta := { chunk_id := cid, user_id := u, vendor_name := v, ctype := "invoice",
              total_amount := some am, invoice_date := some dt } }

/-- The three worked-example invoice chunks. -/
def c8store : List Chunk :=
  [ c8chunk "cA" "u1" "A" "100" "2024-01-05",
    c8chunk "cB" "u1" "B" "50" "2024-01-20",
    c8chunk "cC" "u1" "C" "75" "2024-02-10" ]

/-! ## gemini_client.py : call_gemini -/

/-- The parse outcomes of one 2xx response body in call_gemini
(gemini_client.py lines 149-164).  model_output_empty is the truthiness test
on the extracted candidate text; parses is whether json.loads succeeds on the
whole text; has_brace_pair is whether both find and rfind of a brace hit; and
substring_parses is whether json.loads succeeds on the brace-delimited
substring. -/
structure GeminiBody where
  model_output_empty : Bool
  parses : Bool
  has_brace_pair : Bool
  substring_parses : Bool
deriving DecidableEq

/-- The outcome of one requests.post attempt inside call_gemini. -/
inductive GeminiAttempt
  | timeout
  | exn (msg : String)
  | response (status : Nat) (body : GeminiBody)
deriving DecidableEq

/-- The value call_gemini returns: either the parsed invoice JSON, or an error
dict carrying a retryable flag. -/
inductive GeminiResult
  | parsed
  | error (message : String) (retryable : Bool)
deriving DecidableEq

/-- The retry loop of call_gemini (gemini_client.py lines 121-178).  attempts
gives the outcome of the requests.post call at each retry_count; fuel is
max_retries + 1 - retry_count, so the fuel-0 case is the unreachable
fall-through return of line 178.  A rate limit (429) and a server error (5xx)
and a timeout back off and retry while retry_count < max_retries and
otherwise return a retryable error; raise_for_status on a remaining 4xx
raises into the generic handler (retryable); a 2xx body is parsed: empty
output and output without a brace pair are non-retryable errors, and a failing
json.loads on the brace-delimited substring raises out of the JSONDecodeError
handler into the generic exception handler (retryable). -/
def call_gemini_loop (attempts : Nat → GeminiAttempt) (max_retries : Nat) :
    Nat → Nat → GeminiResult
  | _, 0 => .error "Max retries exceeded" true
  | retry_count, fuel + 1 =>
    match attempts retry_count with
    | .timeout =>
        if retry_count < max_retries then
          call_gemini_loop attempts max_retries (retry_count + 1) fuel
        else .error "Request timeout" true
    | .exn msg => .error msg true
    | .response status body =>
        if status = 429 then
          if retry_count < max_retries then
            call_gemini_loop attempts max_retries (retry_count + 1) fuel
          else .error "Rate limit exceeded" true
        else if 500 ≤ status then
          if retry_count < max_retries then
            call_gemini_loop attempts max_retries (retry_count + 1) fuel
          else .error ("Server error: " ++ toString status) true
        else if 400 ≤ status then
          .error "HTTPError" true
        else if body.model_output_empty then
          .error "Empty response from Gemini" false
        else if body.parses then .parsed
        else if body.has_brace_pair then
          if body.substring_parses then .parsed
          else .error "JSONDecodeError" true
        else .error "Invalid JSON from Gemini" false

/-- call_gemini (gemini_client.py lines 108-178). -/
def call_gemini (attempts : Nat → GeminiAttempt) (max_retries : Nat) :
    GeminiResult :=
  call_gemini_loop attempts max_retries 0 (max_retries + 1)

/-! ## invoice_processor.py : process_vendor_invoices

The Drive download of master.json, the per-file PDF download, the OCR HTTP
call and the upload are external collaborators, passed in as oracles.  The
three alias keys fileId / file_id / id (and fileName / file_name / name) are
collapsed into one optional field holding the value of the get-or-chain;
str() of the chain is modelled by pyStrOfFileId, so an invoice with no file
id at all stringifies to "None" exactly as str(None) does. -/

/-- One candidate file dict of the batch. -/
structure PInvoice where
  fileId : Option String := none
  fileName : Option String := none
  mimeType : Option String := none
  webViewLink : Option String := none
  webContentLink : Option String := none
deriving DecidableEq

/-- str(invoice.get("fileId") or invoice.get("file_id") or invoice.get("id"))
(invoice_processor.py line 225): an absent value is None and stringifies to
"None". -/
def pyStrOfFileId : Option String → String
  | none => "None"
  | some s => s

/-- One record of the vendor's master.json list; drive_file_id, file_name and
vendor_name are the keys the merge consults, the remaining extracted fields
are the opaque payload. -/
structure MasterRecord where
  drive_file_id : Option String := none
  file_name : Option String := none
  vendor_name : Option String := none
  payload : String := ""
deriving DecidableEq

/-- The id a master record contributes to the id index: str(value) for a
truthy drive_file_id (invoice_processor.py line 214). -/
def idOf (r : MasterRecord) : Option String :=
  match r.drive_file_id with
  | some s => if s = "" then none else some s
  | none => none

/-- The source-file ids present in a record list (the key set of
master_index). -/
def recordIds (records : List MasterRecord) : List String :=
  records.filterMap idOf

/-- next((i for i, r in enumerate(master_records) if
r.get("drive_file_id") == file_id), None) (invoice_processor.py line 302). -/
def masterFindIdx : List MasterRecord → String → Option Nat
  | [], _ => none
  | r :: rest, fid =>
      if (match r.drive_file_id with | some s => s == fid | none => false) then some 0
      else (masterFindIdx rest fid).map (· + 1)

/-- The outcome of the OCR collaborator for one file
(invoice_processor.py lines 278-284): no payload at all, a payload carrying an
error key, or a successful structured payload. -/
inductive OcrOutcome
  | failed
  | errorField (msg : String)
  | ok (payload : String)
deriving DecidableEq

/-- The external collaborators of one pipeline run. -/
structure PipelineEnv where
  downloadOk : String → Bool
  ocr : String → OcrOutcome
  uploadOk : Bool
  now : Nat

/-- One entry of the skipped output (reason plus the file id when the code
attaches one). -/
structure SkipEntry where
  reason : String
  file_id : Option String := none
deriving DecidableEq

/-- The merge of one enriched record into the master list
(invoice_processor.py lines 299-312): when the file id is a key of
master_index, replace the first entry whose drive_file_id equals it (append if
the index scan unexpectedly finds none); otherwise append and record the new
key. -/
def mergeById (records : List MasterRecord) (index : List String) (fid : String)
    (enriched : MasterRecord) : List MasterRecord × List String :=
  if fid ∈ index then
    match masterFindIdx records fid with
    | some idx => (records.set idx enriched, index)
    | none => (records ++ [enriched], index)
  else (records ++ [enriched], index ++ [fid])

/-- The state threaded through the per-invoice loop. -/
structure LoopState where
  master_records : List MasterRecord
  master_index : List String
  processed : List String
  skipped : List SkipEntry
  docs : List DocRecord
deriving DecidableEq

/-- The loop body of process_vendor_invoices for one candidate file
(invoice_processor.py lines 224-314): reject on missing identifiers or a
non-PDF mime type; skip COMPLETED and PROCESSING documents; otherwise mark
PROCESSING, download, run OCR, enrich, and merge the enriched record into the
master list by drive_file_id (replace the first matching entry, else append). -/
def processOneInvoice (env : PipelineEnv) (user_id vendor_name : String)
    (st : LoopState) (inv : PInvoice) : LoopState :=
  let file_id := pyStrOfFileId inv.fileId
  if file_id = "" ∨ pyFalsy inv.fileName then
    { st with skipped := st.skipped ++ [{ reason := "missing identifiers" }] }
  else if pyTruthy inv.mimeType ∧ inv.mimeType ≠ some "application/pdf" then
    { st with skipped := st.skipped ++ [{ reason := "unsupported mime" }] }
  else
    let file_name := inv.fileName.getD ""
    let doc? := st.docs.find? (fun d => d.userId == user_id && d.driveFileId == file_id)
    let skipCompleted :=
      match doc? with
      | some doc => if doc.ocrStatus = "COMPLETED" then true else false
      | none => false
    let skipProcessing :=
      match doc? with
      | some doc => if doc.ocrStatus = "PROCESSING" then true else false
      | none => false
    if skipCompleted then
      { st with skipped := st.skipped ++
          [{ reason := "already completed (DB)", file_id := some file_id }] }
    else if skipProcessing then
      { st with skipped := st.skipped ++
          [{ reason := "already processing", file_id := some file_id }] }
    else
      let docs1 := update_ocr_status st.docs user_id file_id "PROCESSING"
        none none env.now
      if ¬ env.downloadOk file_id then
        { st with
            docs := update_ocr_status docs1 user_id file_id "FAILED"
              none (some "Failed to download PDF from Drive") env.now,
            skipped := st.skipped ++
              [{ reason := "download failed", file_id := some file_id }] }
      else
        match env.ocr file_id with
        | .failed =>
            { st with
                docs := update_ocr_status docs1 user_id file_id "FAILED"
                  none (some "OCR extraction failed") env.now,
                skipped := st.skipped ++
                  [{ reason := "ocr failed", file_id := some file_id }] }
        | .errorField msg =>
            { st with
                docs := update_ocr_status docs1 user_id file_id "FAILED"
                  none (some msg) env.now,
                skipped := st.skipped ++
                  [{ reason := "ocr failed", file_id := some file_id }] }
        | .ok payload =>
            let enriched : MasterRecord :=
              { drive_file_id := some file_id, file_name := some file_name,
                vendor_name := some vendor_name, payload := payload }
            let merged := mergeById st.master_records st.master_index file_id enriched
            { master_records := merged.1, master_index := merged.2,
              processed := st.processed ++ [file_id],
              skipped := st.skipped, docs := docs1 }

/-- The result of one process_vendor_invoices run. -/
structure PipelineResult where
  processed : List String
  skipped : List SkipEntry
  master_records : List MasterRecord
  uploaded : Bool
  master_json_path : Option String
  docs : List DocRecord
deriving DecidableEq

/-- process_vendor_invoices (invoice_processor.py lines 178-360):
a missing refresh token aborts the batch; otherwise the master list is
downloaded (empty when no truthy folder id is given), each candidate file runs
through the loop, and when at least one file was processed the merged list is
uploaded and every processed file's document is marked COMPLETED with the
upload path. -/
def process_vendor_invoices (env : PipelineEnv) (user_id vendor_name : String)
    (invoice_folder_id : Option String) (invoices : List PInvoice)
    (refresh_token : String) (driveMaster : List MasterRecord)
    (docs0 : List DocRecord) : PipelineResult :=
  if refresh_token = "" then
    { processed := [], skipped := [{ reason := "missing refresh token" }],
      master_records := [], uploaded := false, master_json_path := none,
      docs := docs0 }
  else
    let master0 := if pyTruthy invoice_folder_id then driveMaster else []
    let st0 : LoopState :=
      { master_records := master0, master_index := recordIds master0,
        processed := [], skipped := [], docs := docs0 }
    let st := invoices.foldl (processOneInvoice env user_id vendor_name) st0
    let uploaded := !st.processed.isEmpty
    let master_json_path :=
      if ¬ st.processed.isEmpty ∧ pyTruthy invoice_folder_id ∧ env.uploadOk then
        some ((invoice_folder_id.getD "") ++ "/master.json")
      else none
    let docsFinal :=
      if st.processed.isEmpty then st.docs
      else st.processed.foldl
        (fun docs fid => update_ocr_status docs user_id fid "COMPLETED"
          master_json_path none env.now)
        st.docs
    { processed := st.processed, skipped := st.skipped,
      master_records := st.master_records, uploaded := uploaded,
      master_json_path := master_json_path, docs := docsFinal }

/-- The merge invariant: the id index is exactly the ids of the master list,
and those ids are pairwise distinct. -/
def MergeInv (st : LoopState) : Prop :=
  st.master_index = recordIds st.master_records ∧
    (recordIds st.master_records).Nodup

/-- The external collaborators for the concrete pipeline runs: every download
succeeds, OCR returns a structured payload, the upload works. -/
def pipeEnv : PipelineEnv :=
  { downloadOk := fun _ => true, ocr := fun _ => .ok "extracted", uploadOk := true,
    now := 0 }

/-- A well-formed PDF candidate file with id f1. -/
def pipeInv : PInvoice :=
  { fileId := some "f1", fileName := some "a.pdf",
    mimeType := some "application/pdf" }

/-- A loaded master list that already contains two entries with the same
source file id f1 (the race the spec describes). -/
def c2masterDup : List MasterRecord :=
  [ { drive_file_id := some "f1", file_name := some "a.pdf",
      vendor_name := some "acme", payload := "old1" },
    { drive_file_id := some "f1", file_name := some "a.pdf",
      vendor_name := some "acme", payload := "old2" } ]

/-- A duplicate-free loaded master list. -/
def c2masterOne : List MasterRecord :=
  [ { drive_file_id := some "f0", file_name := some "z.pdf",
      vendor_name := some "acme", payload := "old0" } ]

/-! ## Claim C5 : an all-COMPLETED batch is a no-op -/

/-- A candidate file that passes the identifier and mime checks. -/
def wellFormedInvoice (inv : PInvoice) : Prop :=
  pyStrOfFileId inv.fileId ≠ "" ∧ pyFalsy inv.fileName = false ∧
    (pyTruthy inv.mimeType = true → inv.mimeType = some "application/pdf")

/-- The stored status of the candidate file is COMPLETED in the documents
collection. -/
def completedInDb (docs : List DocRecord) (u : String) (inv : PInvoice) : Prop :=
  ∃ d, docs.find? (fun d => d.userId == u
      && d.driveFileId == pyStrOfFileId inv.fileId) = some d ∧
    d.ocrStatus = "COMPLETED"

/-- The skip entry an already-completed candidate file produces. -/
def c5skipOf (inv : PInvoice) : SkipEntry :=
  { reason := "already completed (DB)", file_id := some (pyStrOfFileId inv.fileId) }

/-- A COMPLETED document record for file f1 of user u1. -/
def c5doc : DocRecord :=
  { userId := "u1", driveFileId := "f1", ocrStatus := "COMPLETED", indexed := true }

/-! ## Claim C6 : the missing-identifier reject -/

/-- A candidate file with a file name but no file id at all (none of the
fileId / file_id / id keys present). -/
def c6invNoId : PInvoice :=
  { fileName := some "b.pdf", mimeType := some "application/pdf" }

/-- A candidate file with a file id but no file name. -/
def c6invNoName : PInvoice := { fileId := some "f3" }

/-- A candidate file with a non-PDF mime type. -/
def c6invPng : PInvoice :=
  { fileId := some "f2", fileName := some "img.png", mimeType := some "image/png" }

/-! ## Claims C3, C4, C9 -/

/-- C3 counterexample: a single transition-method call (mark_chat_indexing) on a
record whose status is PENDING — not OCR_SUCCESS — sets its status to
CHAT_INDEXING, so the transition methods do not enforce the state-machine
graph. -/
theorem C3_counterexample :
    StatusStep c3rec (c3rec.mark_chat_indexing 1) ∧
    c3rec.status = "PENDING" ∧
    c3rec.status ≠ "OCR_SUCCESS" ∧
    (c3rec.mark_chat_indexing 1).status = "CHAT_INDEXING" :=
  ⟨StatusStep.chat_indexing c3rec 1, rfl, by decide, rfl⟩

/-- C3 amended: each transition method of InvoiceProcessingStatus sets its
fixed target status unconditionally, regardless of the record's prior status;
in particular mark_chat_indexing always yields CHAT_INDEXING (and increments
chat_attempt_count), even when the prior status was not OCR_SUCCESS.  The §4.1
graph is enforced only by call-site ordering, not by the record's methods. -/
theorem C3_amended_theorem :
    ∀ (s : InvoiceProcessingStatus) (res : Option String) (msg : String)
      (r : Bool) (now : Nat),
      (s.mark_downloading now).status = "DOWNLOADING" ∧
      (s.mark_ocr_processing now).status = "OCR_PROCESSING" ∧
      (s.mark_ocr_success res now).status = "OCR_SUCCESS" ∧
      (s.mark_ocr_failed msg r now).status = "OCR_FAILED" ∧
      (s.mark_chat_indexing now).status = "CHAT_INDEXING" ∧
      (s.mark_chat_indexing now).chat_attempt_count = s.chat_attempt_count + 1 ∧
      (s.mark_chat_failed msg r now).status = "CHAT_FAILED" ∧
      (s.mark_completed now).status = "COMPLETED" :=
  fun _ _ _ _ _ => ⟨rfl, rfl, rfl, rfl, rfl, rfl, rfl, rfl⟩

/-- C4 counterexample: a record with status OCR_FAILED, attempt count 0 and an
empty error list is eligible (should_retry_ocr = true) although its error list
has no most-recent entry at all, refuting "true only if the most recent entry
of the error list has retryable = true". -/
theorem C4_counterexample :
    c4rec.should_retry_ocr 3 = true ∧ c4rec.errors = [] ∧
    c4rec.errors.getLast? = none := by
  refine ⟨by decide, rfl, rfl⟩

/-- C4 amended: should_retry_ocr (resp. should_retry_chat) is true iff the
status is OCR_FAILED (resp. CHAT_FAILED), the matching attempt counter is
strictly below the ceiling, and the error list is empty or its most recent
entry has retryable = true.  The worked example stands: an OCR_FAILED document
with ocr_attempt_count = 3 and a retryable last error is not retried under
ceiling 3 but is retried under ceiling 4, both by should_retry_ocr and by the
attempt-ceiling partition of the retry service. -/
theorem C4_amended_theorem :
    (∀ (s : InvoiceProcessingStatus) (m : Nat),
      s.should_retry_ocr m = true ↔
        (s.status = "OCR_FAILED" ∧ s.ocr_attempt_count < m ∧
          (s.errors = [] ∨ ∃ e, s.errors.getLast? = some e ∧ e.retryable = true))) ∧
    (∀ (s : InvoiceProcessingStatus) (m : Nat),
      s.should_retry_chat m = true ↔
        (s.status = "CHAT_FAILED" ∧ s.chat_attempt_count < m ∧
          (s.errors = [] ∨ ∃ e, s.errors.getLast? = some e ∧ e.retryable = true))) ∧
    c4doc.should_retry_ocr 3 = false ∧
    c4doc.should_retry_ocr 4 = true ∧
    retryPartition (retryFailedSelection [c4doc]) 3 3 = ([], [c4doc]) ∧
    retryPartition (retryFailedSelection [c4doc]) 4 3 = ([c4doc], []) := by
  refine ⟨?_, ?_, by decide, by decide, by decide, by decide⟩
  · intro s m
    simp only [InvoiceProcessingStatus.should_retry_ocr,
      InvoiceProcessingStatus.is_retryable, Bool.and_eq_true, beq_iff_eq,
      decide_eq_true_eq]
    constructor
    · rintro ⟨⟨h1, h2⟩, h3⟩
      refine ⟨h1, h2, ?_⟩
      rw [if_pos (Or.inl h1)] at h3
      cases hl : s.errors.getLast? with
      | none => exact Or.inl (List.getLast?_eq_none_iff.mp hl)
      | some e => rw [hl] at h3; exact Or.inr ⟨e, rfl, h3⟩
    · rintro ⟨h1, h2, h3⟩
      refine ⟨⟨h1, h2⟩, ?_⟩
      rw [if_pos (Or.inl h1)]
      rcases h3 with h3 | ⟨e, he, hr⟩
      · rw [List.getLast?_eq_none_iff.mpr h3]
      · rw [he]; exact hr
  · intro s m
    simp only [InvoiceProcessingStatus.should_retry_chat,
      InvoiceProcessingStatus.is_retryable, Bool.and_eq_true, beq_iff_eq,
      decide_eq_true_eq]
    constructor
    · rintro ⟨⟨h1, h2⟩, h3⟩
      refine ⟨h1, h2, ?_⟩
      rw [if_pos (Or.inr h1)] at h3
      cases hl : s.errors.getLast? with
      | none => exact Or.inl (List.getLast?_eq_none_iff.mp hl)
      | some e => rw [hl] at h3; exact Or.inr ⟨e, rfl, h3⟩
    · rintro ⟨h1, h2, h3⟩
      refine ⟨⟨h1, h2⟩, ?_⟩
      rw [if_pos (Or.inr h1)]
      rcases h3 with h3 | ⟨e, he, hr⟩
      · rw [List.getLast?_eq_none_iff.mpr h3]
      · rw [he]; exact hr

/-- C9: a record whose status is OCR_FAILED or CHAT_FAILED but whose error list
is empty is reported retryable by is_retryable — the absent error history
counts as retryable. -/
theorem C9_theorem :
    ∀ s : InvoiceProcessingStatus,
      (s.status = "OCR_FAILED" ∨ s.status = "CHAT_FAILED") → s.errors = [] →
      s.is_retryable = true := by
  intro s h he
  rw [InvoiceProcessingStatus.is_retryable, if_pos h, he]
  rfl

/-- C9 witness: the CHAT_FAILED record with empty error list is retryable. -/
theorem C9_witness : c9rec.is_retryable = true :=
  C9_theorem c9rec (Or.inr rfl) rfl

/-- Frame of applyOcrStatusUpdate for a non-COMPLETED status: indexed,
ocrCompletedAt and masterJsonPath are untouched. -/
theorem applyOcrStatusUpdate_frame (d : DocRecord) (st : String)
    (mp err : Option String) (now : Nat) (h : st ≠ "COMPLETED") :
    (applyOcrStatusUpdate d st mp err now).indexed = d.indexed ∧
    (applyOcrStatusUpdate d st mp err now).ocrCompletedAt = d.ocrCompletedAt ∧
    (applyOcrStatusUpdate d st mp err now).masterJsonPath = d.masterJsonPath := by
  cases he : pyTruthy err <;> simp [applyOcrStatusUpdate, he, h]

/-- applyOcrStatusUpdate never changes the document's key pair. -/
theorem applyOcrStatusUpdate_key (d : DocRecord) (st : String)
    (mp err : Option String) (now : Nat) :
    (applyOcrStatusUpdate d st mp err now).userId = d.userId ∧
    (applyOcrStatusUpdate d st mp err now).driveFileId = d.driveFileId := by
  cases he : pyTruthy err <;> cases hs : decide (st = "COMPLETED") <;>
    simp_all [applyOcrStatusUpdate]

/-- List-level frame of update_ocr_status for a non-COMPLETED status. -/
theorem update_ocr_status_frame (docs : List DocRecord)
    (u f st : String) (mp err : Option String) (now : Nat) (h : st ≠ "COMPLETED") :
    (update_ocr_status docs u f st mp err now).map
        (fun d => (d.indexed, d.ocrCompletedAt, d.masterJsonPath)) =
      docs.map (fun d => (d.indexed, d.ocrCompletedAt, d.masterJsonPath)) := by
  induction docs with
  | nil => rfl
  | cons d rest ih =>
      rw [update_ocr_status, updateFirstDoc]
      split
      · obtain ⟨h1, h2, h3⟩ := applyOcrStatusUpdate_frame d st mp err now h
        simp [h1, h2, h3]
      · simpa using ih

/-- C10: update_ocr_status resets the indexed flag and records ocrCompletedAt
exactly when the new status is COMPLETED; any other status leaves indexed,
ocrCompletedAt and masterJsonPath unchanged on every document, so a document
whose re-OCR completes becomes eligible again for get_unindexed_documents. -/
theorem C10_theorem :
    (∀ (d : DocRecord) (mp err : Option String) (now : Nat),
      (applyOcrStatusUpdate d "COMPLETED" mp err now).indexed = false ∧
      (applyOcrStatusUpdate d "COMPLETED" mp err now).ocrCompletedAt = some now ∧
      (applyOcrStatusUpdate d "COMPLETED" mp err now).ocrStatus = "COMPLETED") ∧
    (∀ (d : DocRecord) (st : String) (mp err : Option String) (now : Nat),
      st ≠ "COMPLETED" →
      (applyOcrStatusUpdate d st mp err now).indexed = d.indexed ∧
      (applyOcrStatusUpdate d st mp err now).ocrCompletedAt = d.ocrCompletedAt ∧
      (applyOcrStatusUpdate d st mp err now).masterJsonPath = d.masterJsonPath) ∧
    (∀ (docs : List DocRecord) (u f st : String) (mp err : Option String) (now : Nat),
      st ≠ "COMPLETED" →
      (update_ocr_status docs u f st mp err now).map
          (fun d => (d.indexed, d.ocrCompletedAt, d.masterJsonPath)) =
        docs.map (fun d => (d.indexed, d.ocrCompletedAt, d.masterJsonPath))) ∧
    (∀ (docs : List DocRecord) (u : String) (d : DocRecord),
      d ∈ docs → d.userId = u → d.ocrStatus = "COMPLETED" → d.indexed = false →
      d ∈ get_unindexed_documents docs u) := by
  refine ⟨?_, applyOcrStatusUpdate_frame, update_ocr_status_frame, ?_⟩
  · intro d mp err now
    cases he : pyTruthy err <;> simp [applyOcrStatusUpdate, he]
  · intro docs u d hmem h1 h2 h3
    simp [get_unindexed_documents, List.mem_filter, hmem, h1, h2, h3]

/-- C10 witness: the theorem evaluated on concrete documents. -/
theorem C10_witness :
    (applyOcrStatusUpdate c10doc "COMPLETED" (some "p/master.json") none 7).indexed
        = false ∧
    (applyOcrStatusUpdate c10doc "FAILED" none (some "boom") 7).ocrCompletedAt
        = c10doc.ocrCompletedAt ∧
    (update_ocr_status [c10doc] "u1" "f9" "PROCESSING" none none 8).map
        (fun d => (d.indexed, d.ocrCompletedAt, d.masterJsonPath)) =
      [c10doc].map (fun d => (d.indexed, d.ocrCompletedAt, d.masterJsonPath)) ∧
    c10doc ∈ get_unindexed_documents [c10doc] "u1" :=
  ⟨(C10_theorem.1 c10doc (some "p/master.json") none 7).1,
   ((C10_theorem.2.1 c10doc "FAILED" none (some "boom") 7) (by decide)).2.1,
   (C10_theorem.2.2.1 [c10doc] "u1" "f9" "PROCESSING" none none 8) (by decide),
   C10_theorem.2.2.2 [c10doc] "u1" c10doc (by simp) rfl rfl rfl⟩

theorem mem_insertKeep (keep : α → α → Bool) (x a : α) (l : List α) :
    a ∈ insertKeep keep x l ↔ a = x ∨ a ∈ l := by
  induction l with
  | nil => simp [insertKeep]
  | cons y ys ih =>
      rw [insertKeep]
      split
      · simp only [List.mem_cons, ih]
        tauto
      · simp only [List.mem_cons]

theorem mem_sortKeep_aux (keep : α → α → Bool) (a : α) (l acc : List α) :
    a ∈ l.foldl (fun acc x => insertKeep keep x acc) acc ↔ a ∈ acc ∨ a ∈ l := by
  induction l generalizing acc with
  | nil => simp
  | cons y ys ih =>
      rw [List.foldl_cons, ih, mem_insertKeep]
      simp only [List.mem_cons]
      tauto

theorem mem_sortKeep (keep : α → α → Bool) (a : α) (l : List α) :
    a ∈ sortKeep keep l ↔ a ∈ l := by
  rw [sortKeep, mem_sortKeep_aux]
  simp

/-- C1 counterexample: search_by_vendor is a read path of the vector store with
no user filter at all — on a store holding only a chunk of userY, a
search_by_vendor read (as issued during any other user's session) returns
userY's chunk, so not every read path filters by user id. -/
theorem C1_counterexample :
    (search_by_vendor [chunkY] "acme" 10).map (fun c => c.meta.user_id)
        = ["userY"] ∧
    "userY" ≠ "userX" := by
  constructor
  · rfl
  · decide

/-- C1 amended: the similarity-search path (search_similar_filtered, with or
without a vendor filter) and the per-user full scan (get_all_by_user) only
return chunks whose stored user id is the requesting user, and the spend
aggregation (get_vendor_spend_totals) reads only that user's chunks; but the
vendor-scoped read path search_by_vendor carries no user filter, so isolation
does not hold for every read path. -/
theorem C1_theorem :
    (∀ (store : List Chunk) (dist : Chunk → Rat) (u : String)
       (v : Option String) (n : Nat) (c : Chunk),
       c ∈ search_similar_filtered store dist u v n → c.meta.user_id = u) ∧
    (∀ (store : List Chunk) (u : String) (v : Option String) (c : Chunk),
       c ∈ get_all_by_user store u v → c.meta.user_id = u) ∧
    (∀ (store : List Chunk) (u : String),
       get_vendor_spend_totals store u
         = get_vendor_spend_totals
             (store.filter (fun ch => ch.meta.user_id == u)) u) := by
  refine ⟨?_, ?_, ?_⟩
  · intro store dist u v n c hc
    unfold search_similar_filtered collection_query at hc
    have hc2 := (mem_sortKeep _ c _).mp (List.mem_of_mem_take hc)
    have hc3 := (List.mem_filter.mp hc2).2
    by_cases hv : pyTruthy v = true <;>
      simp [hv, matchesWhere, Bool.and_eq_true] at hc3 <;> tauto
  · intro store u v c hc
    have hc3 := (List.mem_filter.mp hc).2
    by_cases hv : pyTruthy v = true <;>
      simp [hv, matchesWhere, Bool.and_eq_true] at hc3 <;> tauto
  · intro store u
    simp [get_vendor_spend_totals, collection_get, matchesWhere,
      List.filter_filter]

/-- C1 witness: the user-filtered read paths evaluated on concrete stores. -/
theorem C1_witness :
    chunkX.meta.user_id = "userX" ∧ chunkY.meta.user_id = "userY" :=
  ⟨C1_theorem.1 [chunkX] (fun _ => 0) "userX" none 5 chunkX (by decide),
   C1_theorem.2.1 [chunkY, chunkX] "userY" none chunkY (by decide)⟩

theorem pyTakeLast_map (f : α → β) (n : Nat) (l : List α) :
    pyTakeLast n (l.map f) = (pyTakeLast n l).map f := by
  simp [pyTakeLast, List.map_drop]

theorem filterPeriod_month (ms : List Nat) :
    filterPeriod "month" ms = pyTakeLast 1 ms := by
  induction ms with
  | nil => rfl
  | cons x xs ih =>
      cases xs with
      | nil => rfl
      | cons y ys =>
          have h1 : filterPeriod "month" (x :: y :: ys)
              = filterPeriod "month" (y :: ys) := by
            simp [filterPeriod, List.getLast?_cons_cons]
          have h2 : pyTakeLast 1 (x :: y :: ys) = pyTakeLast 1 (y :: ys) := by
            simp [pyTakeLast, List.length_cons]
          rw [h1, ih, h2]

theorem get_analytics_trend (store : List Chunk) (u p : String) :
    (get_analytics store u p).monthlyTrend =
      if (get_vendor_spend_totals store u).isEmpty then ([] : List (Nat × Rat))
      else (filterPeriod p (analyticsMonths store u)).map
        (fun m => (m, monthValue
          (monthlyTotalsOf ((get_all_by_user store u none).map Chunk.meta)) m)) := by
  by_cases h : (get_vendor_spend_totals store u).isEmpty = true <;>
    simp [get_analytics, h, analyticsMonths]

/-- C8: get_analytics windows the monthly trend by the requested period —
month keeps the chronologically last bucket, quarter the last 3, year the last
12, and any other period value keeps all buckets; on the worked example,
period month yields the single February bucket 75, period quarter yields
January 150 and February 75, and the top vendor is A (highest single-vendor
total 100).  Month buckets are keyed by year*100+month, the numeric image of
the %Y-%m string key. -/
theorem C8_theorem :
    (∀ (store : List Chunk) (u : String),
      (get_analytics store u "month").monthlyTrend
        = pyTakeLast 1 ((get_analytics store u "all").monthlyTrend) ∧
      (get_analytics store u "quarter").monthlyTrend
        = pyTakeLast 3 ((get_analytics store u "all").monthlyTrend) ∧
      (get_analytics store u "year").monthlyTrend
        = pyTakeLast 12 ((get_analytics store u "all").monthlyTrend)) ∧
    (∀ (store : List Chunk) (u p : String),
      p ≠ "month" → p ≠ "quarter" → p ≠ "year" →
      (get_analytics store u p).monthlyTrend
        = (get_analytics store u "all").monthlyTrend) ∧
    (get_analytics c8store "u1" "month").monthlyTrend = [(202402, 75)] ∧
    (get_analytics c8store "u1" "quarter").monthlyTrend
      = [(202401, 150), (202402, 75)] ∧
    (get_analytics c8store "u1" "month").highestVendor = "A" ∧
    (get_analytics c8store "u1" "month").highestSpend = 100 ∧
    get_vendor_spend_totals c8store "u1"
      = [{ vendor_name := "A", total_spend := 100, invoice_count := 1 },
         { vendor_name := "C", total_spend := 75, invoice_count := 1 },
         { vendor_name := "B", total_spend := 50, invoice_count := 1 }] := by
  refine ⟨?_, ?_, by decide, by decide, by decide, by decide, by decide⟩
  · intro store u
    have hall : filterPeriod "all" (analyticsMonths store u)
        = analyticsMonths store u := rfl
    have hq : filterPeriod "quarter" (analyticsMonths store u)
        = pyTakeLast 3 (analyticsMonths store u) := rfl
    have hy : filterPeriod "year" (analyticsMonths store u)
        = pyTakeLast 12 (analyticsMonths store u) := rfl
    refine ⟨?_, ?_, ?_⟩
    · rw [get_analytics_trend, get_analytics_trend, hall]
      by_cases h : (get_vendor_spend_totals store u).isEmpty = true
      · rw [if_pos h, if_pos h]; rfl
      · rw [if_neg h, if_neg h, filterPeriod_month, pyTakeLast_map]
    · rw [get_analytics_trend, get_analytics_trend, hall]
      by_cases h : (get_vendor_spend_totals store u).isEmpty = true
      · rw [if_pos h, if_pos h]; rfl
      · rw [if_neg h, if_neg h, hq, pyTakeLast_map]
    · rw [get_analytics_trend, get_analytics_trend, hall]
      by_cases h : (get_vendor_spend_totals store u).isEmpty = true
      · rw [if_pos h, if_pos h]; rfl
      · rw [if_neg h, if_neg h, hy, pyTakeLast_map]
  · intro store u p h1 h2 h3
    rw [get_analytics_trend, get_analytics_trend]
    have hp : filterPeriod p (analyticsMonths store u) = analyticsMonths store u := by
      rw [filterPeriod, if_neg h1, if_neg h2, if_neg h3]
    have hall : filterPeriod "all" (analyticsMonths store u)
        = analyticsMonths store u := rfl
    rw [hp, hall]

/-- C8 witness: the windowing facts instantiated on the worked example and an
unrecognised period value. -/
theorem C8_witness :
    (get_analytics c8store "u1" "x").monthlyTrend
      = (get_analytics c8store "u1" "all").monthlyTrend :=
  C8_theorem.2.1 c8store "u1" "x" (by decide) (by decide) (by decide)

/-- C7: the failure taxonomy of call_gemini evaluated at concrete responses.
Timeouts, 5xx and exhausted 429 rate limits are classified retryable, and an
unparseable body without a brace pair is classified non-retryable; but an
unparseable body that does contain a brace pair escapes the JSONDecodeError
handler (json.loads raises again inside it) and lands in the generic handler,
which returns retryable = true — contradicting the claimed non-retryable
classification of malformed JSON. -/
theorem C7_theorem :
    call_gemini (fun _ => .response 200
        { model_output_empty := false, parses := false,
          has_brace_pair := true, substring_parses := false }) 3
      = .error "JSONDecodeError" true ∧
    call_gemini (fun _ => .response 200
        { model_output_empty := false, parses := false,
          has_brace_pair := false, substring_parses := false }) 3
      = .error "Invalid JSON from Gemini" false ∧
    call_gemini (fun _ => .response 200
        { model_output_empty := true, parses := false,
          has_brace_pair := false, substring_parses := false }) 3
      = .error "Empty response from Gemini" false ∧
    call_gemini (fun _ => .timeout) 3 = .error "Request timeout" true ∧
    call_gemini (fun _ => .response 503
        { model_output_empty := false, parses := false,
          has_brace_pair := false, substring_parses := false }) 3
      = .error "Server error: 503" true ∧
    call_gemini (fun _ => .response 429
        { model_output_empty := false, parses := false,
          has_brace_pair := false, substring_parses := false }) 3
      = .error "Rate limit exceeded" true ∧
    call_gemini (fun _ => .response 200
        { model_output_empty := false, parses := true,
          has_brace_pair := false, substring_parses := false }) 3
      = .parsed := by
  refine ⟨rfl, rfl, rfl, ?_, ?_, ?_, rfl⟩ <;> decide

/-! ## Claim C2 : uniqueness of source-file ids under the merge -/

theorem recordIds_append (l : List MasterRecord) (r : MasterRecord) :
    recordIds (l ++ [r]) = recordIds l ++ (idOf r).toList := by
  cases h : idOf r <;> simp [recordIds, List.filterMap_append, h]

theorem masterFindIdx_mem (l : List MasterRecord) (fid : String)
    (h : fid ∈ recordIds l) : ∃ i, masterFindIdx l fid = some i := by
  induction l with
  | nil => simp [recordIds] at h
  | cons r rest ih =>
      rw [masterFindIdx]
      by_cases hc : (match r.drive_file_id with
          | some s => s == fid | none => false) = true
      · exact ⟨0, by rw [if_pos hc]⟩
      · rw [if_neg hc]
        have hrest : fid ∈ recordIds rest := by
          rcases hido : idOf r with _ | a
          · simpa [recordIds, List.filterMap_cons, hido] using h
          · have hne : fid ≠ a := by
              intro he
              subst he
              apply hc
              rcases hdf : r.drive_file_id with _ | s
              · simp [idOf, hdf] at hido
              · simp only [idOf, hdf] at hido
                by_cases hs : s = ""
                · simp [hs] at hido
                · simp only [if_neg hs, Option.some.injEq] at hido
                  simp [hdf, hido]
            have h2 : fid ∈ a :: recordIds rest := by
              simpa [recordIds, List.filterMap_cons, hido] using h
            rcases List.mem_cons.mp h2 with h3 | h3
            · exact absurd h3 hne
            · exact h3
        obtain ⟨j, hj⟩ := ih hrest
        exact ⟨j + 1, by rw [hj]; rfl⟩

theorem recordIds_set (enriched : MasterRecord) (fid : String)
    (henr : enriched.drive_file_id = some fid) :
    ∀ (l : List MasterRecord) (i : Nat), masterFindIdx l fid = some i →
      recordIds (l.set i enriched) = recordIds l := by
  intro l
  induction l with
  | nil => intro i h; simp [masterFindIdx] at h
  | cons r rest ih =>
      intro i h
      rw [masterFindIdx] at h
      by_cases hc : (match r.drive_file_id with
          | some s => s == fid | none => false) = true
      · rw [if_pos hc] at h
        injection h with h0
        subst h0
        have hdf : r.drive_file_id = some fid := by
          rcases hr : r.drive_file_id with _ | s
          · rw [hr] at hc; simp at hc
          · rw [hr] at hc
            simp only [beq_iff_eq] at hc
            exact congrArg some hc
        show recordIds (enriched :: rest) = recordIds (r :: rest)
        simp [recordIds, List.filterMap_cons, idOf, hdf, henr]
      · rw [if_neg hc] at h
        rcases hmap : masterFindIdx rest fid with _ | j
        · rw [hmap] at h; simp at h
        · rw [hmap] at h
          have hji : j + 1 = i := by simpa using h
          subst hji
          show recordIds (r :: rest.set j enriched) = recordIds (r :: rest)
          cases hido : idOf r with
          | none =>
              have h1 : recordIds (r :: rest.set j enriched)
                  = recordIds (rest.set j enriched) := by
                simp [recordIds, List.filterMap_cons, hido]
              have h2 : recordIds (r :: rest) = recordIds rest := by
                simp [recordIds, List.filterMap_cons, hido]
              rw [h1, h2]
              exact ih j hmap
          | some a =>
              have h1 : recordIds (r :: rest.set j enriched)
                  = a :: recordIds (rest.set j enriched) := by
                simp [recordIds, List.filterMap_cons, hido]
              have h2 : recordIds (r :: rest) = a :: recordIds rest := by
                simp [recordIds, List.filterMap_cons, hido]
              rw [h1, h2, ih j hmap]

theorem mergeById_inv (records : List MasterRecord) (index : List String)
    (fid : String) (enriched : MasterRecord)
    (henr : enriched.drive_file_id = some fid) (hfid : fid ≠ "")
    (hidx : index = recordIds records) (hnd : (recordIds records).Nodup) :
    (mergeById records index fid enriched).2
        = recordIds (mergeById records index fid enriched).1 ∧
      (recordIds (mergeById records index fid enriched).1).Nodup := by
  unfold mergeById
  by_cases hmem : fid ∈ index
  · rw [if_pos hmem]
    have hm : fid ∈ recordIds records := hidx ▸ hmem
    obtain ⟨i, hi⟩ := masterFindIdx_mem records fid hm
    rw [hi]
    have hset := recordIds_set enriched fid henr records i hi
    exact ⟨by rw [hset]; exact hidx, by rw [hset]; exact hnd⟩
  · rw [if_neg hmem]
    have hido : idOf enriched = some fid := by
      simp [idOf, henr, hfid]
    have happ : recordIds (records ++ [enriched]) = recordIds records ++ [fid] := by
      rw [recordIds_append, hido]; rfl
    have hmem2 : fid ∉ recordIds records := hidx ▸ hmem
    constructor
    · rw [happ, hidx]
    · rw [happ]
      simp [List.nodup_append, hnd, hmem2]

theorem processOneInvoice_inv (env : PipelineEnv) (u v : String)
    (st : LoopState) (inv : PInvoice) (h : MergeInv st) :
    MergeInv (processOneInvoice env u v st inv) := by
  unfold processOneInvoice
  by_cases h1 : (pyStrOfFileId inv.fileId = "" ∨ pyFalsy inv.fileName = true)
  · simp only [if_pos h1]; exact h
  · simp only [if_neg h1]
    by_cases h2 : (pyTruthy inv.mimeType = true ∧ inv.mimeType ≠ some "application/pdf")
    · simp only [if_pos h2]; exact h
    · simp only [if_neg h2]
      split
      · exact h
      · split
        · exact h
        · split
          · exact h
          · split
            · exact h
            · exact h
            · obtain ⟨hidx, hnd⟩ := h
              have hfid : pyStrOfFileId inv.fileId ≠ "" := fun he => h1 (Or.inl he)
              exact mergeById_inv st.master_records st.master_index
                (pyStrOfFileId inv.fileId) _ rfl hfid hidx hnd

theorem foldl_processOneInvoice_inv (env : PipelineEnv) (u v : String) :
    ∀ (invoices : List PInvoice) (st : LoopState), MergeInv st →
      MergeInv (invoices.foldl (processOneInvoice env u v) st) := by
  intro invoices
  induction invoices with
  | nil => intro st h; exact h
  | cons inv rest ih =>
      intro st h
      exact ih _ (processOneInvoice_inv env u v st inv h)

/-- C2 counterexample: starting from a loaded list that already holds two
entries with id f1, re-processing f1 replaces only the first matching entry,
so the saved list still contains two entries with id f1 — not exactly one per
source file id. -/
theorem C2_counterexample :
    (process_vendor_invoices pipeEnv "u1" "acme" (some "fold") [pipeInv] "tok"
        c2masterDup []).processed = ["f1"] ∧
    ((process_vendor_invoices pipeEnv "u1" "acme" (some "fold") [pipeInv] "tok"
        c2masterDup []).master_records.filter
          (fun r => r.drive_file_id == some "f1")).length = 2 := by
  refine ⟨by decide, by decide⟩

/-- C2 amended: the merge never introduces a duplicate — whenever the loaded
master list has pairwise-distinct source file ids, the list saved after any
batch still has pairwise-distinct ids (a re-processed file replaces its prior
entry in place); a loaded list that already contains duplicate ids keeps its
extra duplicates, since only the first matching entry is replaced. -/
theorem C2_theorem :
    ∀ (env : PipelineEnv) (u v : String) (folder : Option String)
      (invoices : List PInvoice) (tok : String)
      (driveMaster : List MasterRecord) (docs0 : List DocRecord),
      (recordIds driveMaster).Nodup →
      (recordIds (process_vendor_invoices env u v folder invoices tok
          driveMaster docs0).master_records).Nodup := by
  intro env u v folder invoices tok driveMaster docs0 hnd
  unfold process_vendor_invoices
  by_cases ht : tok = ""
  · simp [ht, recordIds]
  · simp only [if_neg ht]
    have h0 : MergeInv
        { master_records := (if pyTruthy folder then driveMaster else []),
          master_index := recordIds (if pyTruthy folder then driveMaster else []),
          processed := [], skipped := [], docs := docs0 } := by
      refine ⟨rfl, ?_⟩
      by_cases hf : pyTruthy folder = true
      · simpa [hf, recordIds] using hnd
      · simp [hf, recordIds]
    exact (foldl_processOneInvoice_inv env u v invoices _ h0).2

/-- C2 witness: a duplicate-free master list stays duplicate-free through a
run that merges a new file. -/
theorem C2_witness :
    (recordIds (process_vendor_invoices pipeEnv "u1" "acme" (some "fold")
        [pipeInv] "tok" c2masterOne []).master_records).Nodup :=
  C2_theorem pipeEnv "u1" "acme" (some "fold") [pipeInv] "tok" c2masterOne []
    (by decide)

theorem processOneInvoice_completed (env : PipelineEnv) (u v : String)
    (m : List MasterRecord) (i : List String) (p : List String)
    (sk : List SkipEntry) (docs : List DocRecord) (inv : PInvoice)
    (hwf : wellFormedInvoice inv) (hc : completedInDb docs u inv) :
    processOneInvoice env u v
        { master_records := m, master_index := i, processed := p,
          skipped := sk, docs := docs } inv
      = { master_records := m, master_index := i, processed := p,
          skipped := sk ++ [c5skipOf inv], docs := docs } := by
  obtain ⟨hid, hname, hmime⟩ := hwf
  obtain ⟨d, hfind, hstat⟩ := hc
  unfold processOneInvoice
  have h1 : ¬ (pyStrOfFileId inv.fileId = "" ∨ pyFalsy inv.fileName = true) := by
    rintro (h | h)
    · exact hid h
    · rw [hname] at h; exact absurd h (by simp)
  rw [if_neg h1]
  have h2 : ¬ (pyTruthy inv.mimeType = true
      ∧ inv.mimeType ≠ some "application/pdf") := by
    rintro ⟨ha, hb⟩; exact hb (hmime ha)
  rw [if_neg h2]
  simp [hfind, hstat, c5skipOf]

theorem foldl_completed (env : PipelineEnv) (u v : String) :
    ∀ (invoices : List PInvoice) (docs : List DocRecord),
      (∀ inv ∈ invoices, wellFormedInvoice inv ∧ completedInDb docs u inv) →
      ∀ (m : List MasterRecord) (i : List String) (p : List String)
        (sk : List SkipEntry),
        invoices.foldl (processOneInvoice env u v)
            { master_records := m, master_index := i, processed := p,
              skipped := sk, docs := docs }
          = { master_records := m, master_index := i, processed := p,
              skipped := sk ++ invoices.map c5skipOf, docs := docs } := by
  intro invoices
  induction invoices with
  | nil => intro docs _ m i p sk; simp
  | cons inv rest ih =>
      intro docs hall m i p sk
      have hstep := processOneInvoice_completed env u v m i p sk docs inv
        (hall inv (List.mem_cons_self inv rest)).1
        (hall inv (List.mem_cons_self inv rest)).2
      rw [List.foldl_cons, hstep,
        ih docs (fun j hj => hall j (List.mem_cons_of_mem inv hj)) m i p
          (sk ++ [c5skipOf inv])]
      simp

/-- C5: when every candidate file of the batch is well-formed and its stored
status is COMPLETED, the run processes zero files, performs no upload, leaves
the documents collection untouched (so the set of documents awaiting indexing
— the source of vector-store writes — is unchanged), and skips each file as
already completed. -/
theorem C5_theorem :
    ∀ (env : PipelineEnv) (u v : String) (folder : Option String)
      (invoices : List PInvoice) (tok : String)
      (driveMaster : List MasterRecord) (docs0 : List DocRecord),
      tok ≠ "" →
      (∀ inv ∈ invoices, wellFormedInvoice inv ∧ completedInDb docs0 u inv) →
      (process_vendor_invoices env u v folder invoices tok driveMaster
          docs0).processed = [] ∧
      (process_vendor_invoices env u v folder invoices tok driveMaster
          docs0).uploaded = false ∧
      (process_vendor_invoices env u v folder invoices tok driveMaster
          docs0).master_json_path = none ∧
      (process_vendor_invoices env u v folder invoices tok driveMaster
          docs0).docs = docs0 ∧
      (process_vendor_invoices env u v folder invoices tok driveMaster
          docs0).skipped = invoices.map c5skipOf ∧
      get_unindexed_documents (process_vendor_invoices env u v folder invoices
          tok driveMaster docs0).docs u = get_unindexed_documents docs0 u := by
  intro env u v folder invoices tok driveMaster docs0 ht hall
  unfold process_vendor_invoices
  rw [if_neg ht]
  dsimp only
  rw [foldl_completed env u v invoices docs0 hall]
  simp

/-- C5 witness: a batch whose single candidate file is already COMPLETED
processes nothing, uploads nothing, and leaves the documents collection as it
was. -/
theorem C5_witness :
    (process_vendor_invoices pipeEnv "u1" "acme" (some "fold") [pipeInv] "tok"
        c2masterOne [c5doc]).processed = [] ∧
    (process_vendor_invoices pipeEnv "u1" "acme" (some "fold") [pipeInv] "tok"
        c2masterOne [c5doc]).uploaded = false ∧
    (process_vendor_invoices pipeEnv "u1" "acme" (some "fold") [pipeInv] "tok"
        c2masterOne [c5doc]).docs = [c5doc] :=
  have hall : ∀ inv ∈ [pipeInv],
      wellFormedInvoice inv ∧ completedInDb [c5doc] "u1" inv := by
    intro inv hinv
    rw [List.mem_singleton] at hinv
    subst hinv
    exact ⟨⟨by decide, by decide, fun _ => rfl⟩, ⟨c5doc, rfl, rfl⟩⟩
  have h := C5_theorem pipeEnv "u1" "acme" (some "fold") [pipeInv] "tok"
    c2masterOne [c5doc] (by decide) hall
  ⟨h.1, h.2.1, h.2.2.2.1⟩

/-- C6: a candidate file with a missing file name and one with a non-PDF mime
type are rejected before any download or status write, as the claim states;
but a candidate file whose file id is missing is NOT rejected — str(None)
produces the truthy string "None", the missing-identifier check passes, and
the file is downloaded, OCR-processed and recorded under drive_file_id "None"
(processed = ["None"], nothing skipped). -/
theorem C6_theorem :
    (process_vendor_invoices pipeEnv "u1" "acme" (some "fold") [c6invNoId]
        "tok" [] []).processed = ["None"] ∧
    (process_vendor_invoices pipeEnv "u1" "acme" (some "fold") [c6invNoId]
        "tok" [] []).skipped = [] ∧
    (process_vendor_invoices pipeEnv "u1" "acme" (some "fold") [c6invNoName]
        "tok" [] []).skipped = [{ reason := "missing identifiers" }] ∧
    (process_vendor_invoices pipeEnv "u1" "acme" (some "fold") [c6invNoName]
        "tok" [] []).processed = [] ∧
    (process_vendor_invoices pipeEnv "u1" "acme" (some "fold") [c6invPng]
        "tok" [] []).skipped = [{ reason := "unsupported mime" }] ∧
    (process_vendor_invoices pipeEnv "u1" "acme" (some "fold") [c6invPng]
        "tok" [] []).processed = [] := by
  refine ⟨by decide, by decide, by decide, by decide, by decide, by decide⟩
